import Mathlib

/-!
# Verification of the Thermostat Boost core (timer + snapshot/restore + orchestrator)

Shallow embedding of `custom_components/thermostat_boost` from the repository
`Home-Assistant-Thermostat-booster`.  The host platform state (entity registry,
live state store, persisted stores, the per-instance pending-operation maps held
in `hass.data`, the service-call log and the timer registry) is collected in one
`World` record.  Each relevant Python coroutine is translated into a pure Lean
function `World → ... → World` (plus result values); machine floats are modelled
over `Int` (temperatures in whole degrees, durations and wall-clock instants in
milliseconds), and a `HomeAssistantError` raised by a bulk service call is
modelled by a fault oracle `World.failing` listing the calls that raise.
-/

namespace ThermostatBoost

/-! ## Association lists (Python `dict` with string keys, insertion ordered) -/

def lookupA {α : Type} : List (String × α) → String → Option α
  | [], _ => none
  | (k, v) :: rest, key => if k == key then some v else lookupA rest key

def setA {α : Type} : List (String × α) → String → α → List (String × α)
  | [], key, v => [(key, v)]
  | (k, w) :: rest, key, v =>
    if k == key then (key, v) :: rest else (k, w) :: setA rest key v

def eraseA {α : Type} : List (String × α) → String → List (String × α)
  | [], _ => []
  | (k, w) :: rest, key =>
    if k == key then eraseA rest key else (k, w) :: eraseA rest key

theorem lookupA_setA_self {α : Type} (l : List (String × α)) (k : String) (v : α) :
    lookupA (setA l k v) k = some v := by
  induction l with
  | nil => simp [setA, lookupA]
  | cons p rest ih =>
    obtain ⟨k', v'⟩ := p
    by_cases h : k' = k
    · simp [setA, lookupA, h]
    · simp [setA, lookupA, h, ih]

theorem lookupA_setA_ne {α : Type} (l : List (String × α)) {k k' : String} (v : α)
    (h : k' ≠ k) : lookupA (setA l k v) k' = lookupA l k' := by
  induction l with
  | nil => simp [setA, lookupA, Ne.symm h]
  | cons p rest ih =>
    obtain ⟨k₀, v₀⟩ := p
    by_cases h₀ : k₀ = k
    · subst h₀
      simp [setA, lookupA, Ne.symm h]
    · simp [setA, lookupA, h₀, ih]

theorem lookupA_eraseA_self {α : Type} (l : List (String × α)) (k : String) :
    lookupA (eraseA l k) k = none := by
  induction l with
  | nil => simp [eraseA, lookupA]
  | cons p rest ih =>
    obtain ⟨k', v'⟩ := p
    by_cases h : k' = k
    · simp [eraseA, h, ih]
    · simp [eraseA, lookupA, h, ih]

theorem lookupA_eraseA_ne {α : Type} (l : List (String × α)) {k k' : String}
    (h : k' ≠ k) : lookupA (eraseA l k) k' = lookupA l k' := by
  induction l with
  | nil => simp [eraseA]
  | cons p rest ih =>
    obtain ⟨k₀, v₀⟩ := p
    by_cases h₀ : k₀ = k
    · subst h₀
      simp [eraseA, lookupA, Ne.symm h, ih]
    · simp [eraseA, lookupA, h₀, ih]

/-! ## Constants (`const.py`) -/

def UNIQUE_ID_TIME_SELECTOR : String := "boost_time_selector"
def UNIQUE_ID_BOOST_TEMPERATURE : String := "boost_temperature"
def UNIQUE_ID_BOOST_ACTIVE : String := "boost_active"
def UNIQUE_ID_SCHEDULE_OVERRIDE : String := "disable_schedules"

/-! ## Data model -/

/-- One row of the host entity registry (`er.async_get(hass).entities`). -/
structure RegEntry where
  entityId : String
  domain : String
  platform : String
  uniqueId : String
  deriving DecidableEq

/-- A live entity state (`hass.states.get(entity_id)`): the state string plus
the attributes the integration reads (`tags` on scheduler switches,
`temperature` on the thermostat). -/
structure EntState where
  st : String
  tags : List String
  temperature : Option Int
  deriving DecidableEq

/-- `hass.data[DOMAIN][entry_id]` for a thermostat entry: `CONF_THERMOSTAT`
and `DATA_THERMOSTAT_NAME`. -/
structure EntryData where
  thermostat : String
  name : String
  deriving DecidableEq

/-- A `hass.services.async_call(domain, service, payload, blocking=True)`
invocation.  `value` carries the numeric payload for `set_temperature` /
`set_value`; `none` for the switch services. -/
structure SvcCall where
  domain : String
  service : String
  targets : List String
  value : Option Int
  deriving DecidableEq, BEq

/-- Cached `BoostTimer` fields (`timer_manager.BoostTimer`): constructor
arguments plus the in-memory `_end` (milliseconds since epoch). -/
structure TimerRec where
  thermostat : String
  name : String
  tEnd : Option Int
  deriving DecidableEq

/-- `EVENT_TIMER_FINISHED` payload. -/
structure TimerEvent where
  entry : String
  thermostat : String
  name : String
  expiredWhileOffline : Bool
  deriving DecidableEq

/-- The whole modelled world: host collaborators plus every piece of state the
integration owns.  `calls` is the chronological log of bulk service calls;
`failing` is the fault oracle (calls that raise `HomeAssistantError`);
`tasks` is the queue of finish-callback tasks created by
`hass.async_create_task` in `BoostTimer.async_finish`. -/
structure World where
  entityReg : List RegEntry
  states : List (String × EntState)
  entries : List (String × EntryData)
  schedSnap : List (String × List (String × String))
  tempSnap : List (String × Int)
  restorePending : List (String × Bool)
  restoreUnsub : List String
  stabilizePending : List String
  stabilizeUnsub : List String
  retriggerPending : List String
  retriggerUnsub : List String
  finishInProgress : List String
  timerData : List (String × Int)
  timers : List (String × TimerRec)
  timerScheduled : List String
  calls : List SvcCall
  events : List TimerEvent
  tasks : List String
  finishCallbackRegistered : Bool
  unitCelsius : Bool
  now : Int
  failing : List SvcCall
  deriving DecidableEq

/-! ## Entity helpers (`boost_actions.py` / `sensor.py`) -/

/-- `_get_entity_id`: first registry entry whose `unique_id` is
`f"{entry_id}_{unique_id_suffix}"`. -/
def getEntityId (w : World) (entry suffix : String) : Option String :=
  (w.entityReg.find? fun e => e.uniqueId == entry ++ "_" ++ suffix).map
    (fun e => e.entityId)

/-- `_is_switch_on`. -/
def isSwitchOn (w : World) (entry suffix : String) : Bool :=
  match getEntityId w entry suffix with
  | none => false
  | some eid =>
    match lookupA w.states eid with
    | none => false
    | some s => s.st == "on"

/-- Decimal digits parse (kernel-reducible stand-in for Python's `int`/`float`
numeric parse over the `Int` model). -/
def parseNatChars (l : List Char) : Option Nat :=
  if l ≠ [] ∧ l.all Char.isDigit then
    some (l.foldl (fun n c => n * 10 + (c.toNat - 48)) 0)
  else none

/-- Signed decimal parse. -/
def parseIntChars : List Char → Option Int
  | '-' :: rest => (parseNatChars rest).map fun n => -(n : Int)
  | '+' :: rest => (parseNatChars rest).map fun n => (n : Int)
  | l => (parseNatChars l).map fun n => (n : Int)

def strToInt (s : String) : Option Int := parseIntChars s.data

/-- Python `str.strip()`. -/
def strTrim (s : String) : String :=
  ⟨(((s.data.dropWhile Char.isWhitespace).reverse.dropWhile
      Char.isWhitespace).reverse)⟩

/-- Python `str.split(":")` over the character list. -/
def splitColon : List Char → List (List Char)
  | [] => [[]]
  | c :: rest =>
    let r := splitColon rest
    if c = ':' then [] :: r
    else
      match r with
      | h :: t => (c :: h) :: t
      | [] => [[c]]

/-- `_get_number_value`: live state parsed as a number (`float(state.state)`,
modelled over `Int`); `None` when the entity is missing, unknown/unavailable,
or unparsable. -/
def getNumberValue (w : World) (entry suffix : String) : Option Int :=
  match getEntityId w entry suffix with
  | none => none
  | some eid =>
    match lookupA w.states eid with
    | none => none
    | some s =>
      if s.st == "unknown" || s.st == "unavailable" then none
      else strToInt s.st

/-! ## Scheduler matching (`scheduler_utils.py`) -/

/-- Python `str.lower()`, written as a per-character map so it evaluates in
the kernel (the compared names and tags are ASCII). -/
def strLower (s : String) : String :=
  ⟨s.data.map Char.toLower⟩

/-- Python `needle in hay` substring test. -/
def strContainsSub (hay needle : String) : Bool :=
  (List.range (hay.data.length + 1)).any fun i =>
    needle.data.isPrefixOf (hay.data.drop i)

/-- `_matches_tag(tags, thermostat_name_lower)` for the list-of-strings shape
of the `tags` attribute: `thermostat_name_lower in tag.lower()` for some tag. -/
def matchesTag (tags : List String) (nameLower : String) : Bool :=
  tags.any fun t => strContainsSub (strLower t) nameLower

/-- `get_scheduler_switches_for_thermostat`: available `switch` entities of the
`scheduler` platform whose `tags` attribute matches the thermostat name. -/
def getSchedulerSwitchesForThermostat (w : World) (name : String) : List String :=
  w.entityReg.filterMap fun e =>
    if e.domain == "switch" && strLower e.platform == "scheduler" then
      match lookupA w.states e.entityId with
      | none => none
      | some s =>
        if s.st == "unknown" || s.st == "unavailable" then none
        else if matchesTag s.tags (strLower name) then some e.entityId else none
    else none

/-! ## Service calls -/

/-- State-store effect of a successful bulk call: the integration's own
switches flip to on/off, `climate.set_temperature` updates the target
attribute, `number.set_value` writes the number state. -/
def applyCallEffect (w : World) (c : SvcCall) : World :=
  if c.domain == "switch" && c.service == "turn_on" then
    { w with states := w.states.map fun p =>
        if c.targets.contains p.1 then (p.1, { p.2 with st := "on" }) else p }
  else if c.domain == "switch" && c.service == "turn_off" then
    { w with states := w.states.map fun p =>
        if c.targets.contains p.1 then (p.1, { p.2 with st := "off" }) else p }
  else if c.domain == "climate" && c.service == "set_temperature" then
    { w with states := w.states.map fun p =>
        if c.targets.contains p.1 then (p.1, { p.2 with temperature := c.value })
        else p }
  else if c.domain == "number" && c.service == "set_value" then
    { w with states := w.states.map fun p =>
        if c.targets.contains p.1 then
          (p.1, { p.2 with st := toString (c.value.getD 0) })
        else p }
  else w

/-- `hass.services.async_call(..., blocking=True)`: the attempt is logged; a
call in the fault oracle raises (returns `false`) without a state effect. -/
def doCall (w : World) (c : SvcCall) : World × Bool :=
  let w := { w with calls := w.calls ++ [c] }
  if w.failing.contains c then (w, false) else (applyCallEffect w c, true)

/-! ## Timer engine (`timer_manager.py`)

`Store.async_save`/`async_load` of the end-time map is the `timerData` field
(`dt_util.as_timestamp`/`utc_from_timestamp` are mutually inverse, so the
persisted value is the instant itself).  An armed
`async_track_point_in_utc_time` callback is membership in `timerScheduled`.
Listener notification (`_notify`) only refreshes presentation entities and has
no effect on modelled state. -/

/-- `TimerRegistry.async_set_end`. -/
def timerSetEnd (w : World) (entry : String) (e : Option Int) : World :=
  match e with
  | none => { w with timerData := eraseA w.timerData entry }
  | some t => { w with timerData := setA w.timerData entry t }

/-- `BoostTimer._cancel_schedule`. -/
def cancelSchedule (w : World) (entry : String) : World :=
  { w with timerScheduled := w.timerScheduled.filter fun x => x != entry }

/-- `BoostTimer._schedule_finish`: cancel, then arm iff `_end` is set. -/
def scheduleFinish (w : World) (entry : String) : World :=
  let w := cancelSchedule w entry
  match lookupA w.timers entry with
  | none => w
  | some r =>
    match r.tEnd with
    | none => w
    | some _ => { w with timerScheduled := entry :: w.timerScheduled }

/-- Overwrite the cached timer's in-memory `_end`. -/
def setMemEnd (w : World) (entry : String) (e : Option Int) : World :=
  match lookupA w.timers entry with
  | none => w
  | some r => { w with timers := setA w.timers entry { r with tEnd := e } }

/-- `BoostTimer.async_finish`: clear `_end`, persist, disarm, fire the
`EVENT_TIMER_FINISHED` event, then enqueue the direct fallback callback task. -/
def timerFinish (w : World) (entry : String) (expired : Bool) : World :=
  match lookupA w.timers entry with
  | none => w
  | some r =>
    let w := setMemEnd w entry none
    let w := timerSetEnd w entry none
    let w := cancelSchedule w entry
    { w with
      events := w.events ++ [TimerEvent.mk entry r.thermostat r.name expired],
      tasks := if w.finishCallbackRegistered then w.tasks ++ [entry] else w.tasks }

/-- `BoostTimer.async_start` (duration in milliseconds,
`duration.total_seconds() <= 0` iff `d ≤ 0`). -/
def timerStart (w : World) (entry : String) (d : Int) : World :=
  if d ≤ 0 then timerFinish w entry false
  else
    match lookupA w.timers entry with
    | none => w
    | some _ =>
      let e := w.now + d
      let w := setMemEnd w entry (some e)
      let w := timerSetEnd w entry (some e)
      scheduleFinish w entry

/-- `BoostTimer.async_cancel`. -/
def timerCancel (w : World) (entry : String) : World :=
  match lookupA w.timers entry with
  | none => w
  | some _ =>
    let w := setMemEnd w entry none
    let w := timerSetEnd w entry none
    cancelSchedule w entry

/-- `BoostTimer.snapshot` read model. -/
structure TimerSnap where
  remaining : Int
  status : String
  sEnd : Option Int
  deriving DecidableEq

/-- `BoostTimer.snapshot`. -/
def timerSnapshot (r : TimerRec) (now : Int) : TimerSnap :=
  match r.tEnd with
  | none => ⟨0, "idle", none⟩
  | some e => if e ≤ now then ⟨0, "idle", some e⟩ else ⟨e - now, "active", some e⟩

/-- `TimerRegistry.async_get_timer`: return the cached timer, else construct
one from the persisted end (the constructor arms the callback when an end is
present), run the offline-expiry check, cache it.  The Python object is
mutated in place by the nested `async_finish`; here the record is cached first
so those mutations land on the cached entry — the final state is identical. -/
def getTimer (w : World) (entry thermostat name : String) : World :=
  if (lookupA w.timers entry).isSome then w
  else
    let e := lookupA w.timerData entry
    let w := { w with timers := setA w.timers entry ⟨thermostat, name, e⟩ }
    let w := match e with
      | some _ => scheduleFinish w entry
      | none => w
    match e with
    | some t =>
      if t ≤ w.now then timerFinish w entry true
      else scheduleFinish w entry
    | none => w

/-! ## Snapshot stores and restore logic (`boost_actions.py`) -/

/-- `_schedule_snapshot_restore_retry`: merge the offline-expiry flag into the
pending map by logical OR; if a retry callback is already armed for the entry
the request is a no-op, otherwise arm one. -/
def scheduleSnapshotRestoreRetry (w : World) (entry : String) (expired : Bool) :
    World :=
  let old := (lookupA w.restorePending entry).getD false
  let w := { w with restorePending := setA w.restorePending entry (old || expired) }
  if w.restoreUnsub.contains entry then w
  else { w with restoreUnsub := entry :: w.restoreUnsub }

/-- The snapshot written by `async_create_scheduler_scene`: live states of the
matched switches, skipping entities missing or unknown/unavailable. -/
def capturedSnapshot (w : World) (switches : List String) :
    List (String × String) :=
  switches.filterMap fun eid =>
    match lookupA w.states eid with
    | none => none
    | some s =>
      if s.st == "unknown" || s.st == "unavailable" then none
      else some (eid, s.st)

/-- `async_create_scheduler_scene`: when no scheduler switch matches, return
`[]` without touching the store; otherwise write a full replacement snapshot
for the entry and return the captured entity ids. -/
def createSchedulerScene (w : World) (entry name : String) :
    World × List String :=
  let switches := getSchedulerSwitchesForThermostat w name
  if switches.isEmpty then (w, [])
  else
    let snap := capturedSnapshot w switches
    ({ w with schedSnap := setA w.schedSnap entry snap }, snap.map fun p => p.1)

/-- The `missing_entities` list computed in `async_restore_scheduler_snapshot`. -/
def missingSnapshotEntities (w : World) (snap : List (String × String)) :
    List String :=
  snap.filterMap fun p =>
    match lookupA w.states p.1 with
    | none => some p.1
    | some s =>
      if s.st == "unknown" || s.st == "unavailable" then some p.1 else none

/-- Insertion sort on strings: Python `sorted`. -/
def insertSorted (x : String) : List String → List String
  | [] => [x]
  | y :: rest => if x ≤ y then x :: y :: rest else y :: insertSorted x rest

def sortStrings : List String → List String
  | [] => []
  | x :: rest => insertSorted x (sortStrings rest)

/-- `_async_run_scheduler_actions`: `scheduler.run_action` per restored ON
switch, over `sorted(set(...))` of the non-empty ids; a raising call is caught
and logged, never propagated. -/
def runSchedulerActions (w : World) (ids : List String) : World :=
  let targets := sortStrings ((ids.filter fun eid => eid != "").eraseDups)
  targets.foldl (fun w eid =>
    (doCall w ⟨"scheduler", "run_action", [eid], none⟩).1) w

/-- `async_restore_scheduler_snapshot`.  Guard checks, missing-entity deferral,
the offline-expiry stabilize wait, then the bulk restore: `turn_on` for the ON
partition, `turn_off` for the rest, `run_action` for the ON partition, and
only then consume the snapshot.  A raise from either bulk switch call lands in
the `except` block: defer a retry, snapshot not consumed. -/
def restoreSchedulerSnapshot (w : World) (entry : String)
    (expired skipStabilize : Bool) : World :=
  if isSwitchOn w entry UNIQUE_ID_BOOST_ACTIVE then
    { w with restorePending := eraseA w.restorePending entry }
  else if isSwitchOn w entry UNIQUE_ID_SCHEDULE_OVERRIDE then
    { w with restorePending := eraseA w.restorePending entry }
  else
    match lookupA w.schedSnap entry with
    | none => { w with restorePending := eraseA w.restorePending entry }
    | some snap =>
      if snap.isEmpty then
        { w with schedSnap := eraseA w.schedSnap entry,
                 restorePending := eraseA w.restorePending entry }
      else if !(missingSnapshotEntities w snap).isEmpty then
        scheduleSnapshotRestoreRetry w entry expired
      else if expired && !skipStabilize then
        if w.stabilizePending.contains entry || w.stabilizeUnsub.contains entry
        then w
        else { w with stabilizePending := entry :: w.stabilizePending,
                      stabilizeUnsub := entry :: w.stabilizeUnsub }
      else
        let toOn := (snap.filter fun p => p.2 == "on").map fun p => p.1
        let toOff := (snap.filter fun p => p.2 != "on").map fun p => p.1
        let step1 :=
          if toOn.isEmpty then (w, true)
          else doCall w ⟨"switch", "turn_on", toOn, none⟩
        if !step1.2 then scheduleSnapshotRestoreRetry step1.1 entry expired
        else
          let step2 :=
            if toOff.isEmpty then (step1.1, true)
            else doCall step1.1 ⟨"switch", "turn_off", toOff, none⟩
          if !step2.2 then scheduleSnapshotRestoreRetry step2.1 entry expired
          else
            let w := if toOn.isEmpty then step2.1
                     else runSchedulerActions step2.1 toOn
            { w with schedSnap := eraseA w.schedSnap entry,
                     restorePending := eraseA w.restorePending entry }

/-- `_has_scheduler_snapshot`. -/
def hasSchedulerSnapshot (w : World) (entry : String) : Bool :=
  (lookupA w.schedSnap entry).isSome

/-- `_get_current_target_temperature`: the thermostat's `temperature`
attribute when the state is present and available (`float(value)` is the
identity over the `Int` model, `None`/non-numeric gives `None`). -/
def getCurrentTargetTemperature (w : World) (thermostat : String) : Option Int :=
  match lookupA w.states thermostat with
  | none => none
  | some s =>
    if s.st == "unknown" || s.st == "unavailable" then none else s.temperature

/-- `async_store_target_temperature_snapshot`. -/
def storeTargetTemperatureSnapshot (w : World) (entry thermostat : String) :
    World × Option Int :=
  match getCurrentTargetTemperature w thermostat with
  | none => (w, none)
  | some t => ({ w with tempSnap := setA w.tempSnap entry t }, some t)

/-- `async_restore_target_temperature_snapshot`: no-op `False` without a
snapshot; a raising `climate.set_temperature` is logged as a warning and gives
`False` with the snapshot kept; on success the snapshot is consumed.  (The
invalid-stored-value branch is unreachable over the `Int` model.) -/
def restoreTargetTemperatureSnapshot (w : World) (entry thermostat : String) :
    World × Bool :=
  match lookupA w.tempSnap entry with
  | none => (w, false)
  | some t =>
    let step := doCall w ⟨"climate", "set_temperature", [thermostat], some t⟩
    if !step.2 then (step.1, false)
    else ({ step.1 with tempSnap := eraseA step.1.tempSnap entry }, true)

/-! ## Finish orchestration (`async_finish_boost_for_entry`) -/

/-- First half of the finish body: fetch the timer, cancel it, reset the
duration control to zero and turn the boost-active switch off.  The `Bool` is
`false` when one of the (uncaught) service calls raised. -/
def finishPreamble (w : World) (entry : String) (d : EntryData) : World × Bool :=
  let w := getTimer w entry d.thermostat d.name
  let w := timerCancel w entry
  let step1 :=
    match getEntityId w entry UNIQUE_ID_TIME_SELECTOR with
    | some eid => doCall w ⟨"number", "set_value", [eid], some 0⟩
    | none => (w, true)
  if !step1.2 then (step1.1, false)
  else
    let step2 :=
      match getEntityId step1.1 entry UNIQUE_ID_BOOST_ACTIVE with
      | some eid => doCall step1.1 ⟨"switch", "turn_off", [eid], none⟩
      | none => (step1.1, true)
    if !step2.2 then (step2.1, false)
    else (step2.1, true)

/-- Body of `async_finish_boost_for_entry` (inside the in-progress guard).
After the preamble, the restore decision reads the override flag and snapshot
existence (`no_schedules_detected` is computed only for the debug log): the
temperature-only path when the override is on or no scheduler snapshot exists,
otherwise the temperature baseline restore followed by the scheduler restore. -/
def finishBody (w : World) (entry : String) (expired : Bool) : World × Bool :=
  match lookupA w.entries entry with
  | none => (w, true)
  | some d =>
    let pre := finishPreamble w entry d
    if !pre.2 then (pre.1, false)
    else
      let w := pre.1
      let overrideActive := isSwitchOn w entry UNIQUE_ID_SCHEDULE_OVERRIDE
      let _noSchedules :=
        (getSchedulerSwitchesForThermostat w d.name).isEmpty
      let hasSnap := hasSchedulerSnapshot w entry
      if overrideActive || !hasSnap then
        ((restoreTargetTemperatureSnapshot w entry d.thermostat).1, true)
      else
        let w := (restoreTargetTemperatureSnapshot w entry d.thermostat).1
        (restoreSchedulerSnapshot w entry expired false, true)

/-- `async_finish_boost_for_entry`: dropped outright when a finish for the
same entry is already in progress, otherwise the body runs with the entry held
in the in-progress set, which the `finally` always clears.  The `Bool` is
`false` when the body raised. -/
def finishBoostForEntry (w : World) (entry : String) (expired : Bool) :
    World × Bool :=
  if w.finishInProgress.contains entry then (w, true)
  else
    let w := { w with finishInProgress := entry :: w.finishInProgress }
    let body := finishBody w entry expired
    ({ body.1 with
        finishInProgress := body.1.finishInProgress.filter fun x => x != entry },
      body.2)

/-! ## Start orchestration (`sensor.py`) -/

/-- The `time` service argument: a duration-selector dict, a string, or some
other (rejected) shape. -/
inductive TimeArg
  | dictVal (days hours minutes seconds milliseconds : Int)
  | strVal (s : String)
  | otherVal
  deriving DecidableEq

/-- Shape parse of `_parse_duration_value` (before the positivity check),
duration in milliseconds. -/
def parseDurationCore : TimeArg → Except String Int
  | .dictVal d h m s ms =>
    .ok (d * 86400000 + h * 3600000 + m * 60000 + s * 1000 + ms)
  | .strVal s =>
    match splitColon (strTrim s).data with
    | [p0, p1, p2] =>
      match parseIntChars p0, parseIntChars p1, parseIntChars p2 with
      | some h, some m, some sec =>
        if m < 0 || m > 59 || sec < 0 || sec > 59 || h < 0 then
          .error "time must be in HH:MM:SS format."
        else .ok (h * 3600000 + m * 60000 + sec * 1000)
      | _, _, _ => .error "time must be in HH:MM:SS format."
    | _ => .error "time must be in HH:MM:SS format."
  | .otherVal => .error "time must be a duration selector value."

/-- `_parse_duration_value`: parse, then reject non-positive durations. -/
def parseDurationValue (v : TimeArg) : Except String Int :=
  match parseDurationCore v with
  | .error e => .error e
  | .ok dur =>
    if dur ≤ 0 then .error "time cannot be 00:00:00." else .ok dur

/-- `async_start_boost_for_entry`.  Returns the final world and `some msg`
when a `HomeAssistantError` propagated (configuration errors and raising
service calls alike).  Mirrors the source order: entry lookup, timer fetch,
flag reads, the first-activation pre-boost temperature snapshot, temperature
resolution, duration resolution, unit conversion (`(9*t)/5+32` models the
float converter over `Int`), `climate.set_temperature`, `Timer.Start`,
boost-active on, and the scheduler capture+suspend. -/
def startBoostForEntry (w : World) (entry : String) (timeArg : Option TimeArg)
    (temperatureC : Option Int) : World × Option String :=
  match lookupA w.entries entry with
  | none => (w, some ("No thermostat_boost entry found for " ++ entry))
  | some d =>
    let w := getTimer w entry d.thermostat d.name
    let boostWasActive := isSwitchOn w entry UNIQUE_ID_BOOST_ACTIVE
    let overrideActive := isSwitchOn w entry UNIQUE_ID_SCHEDULE_OVERRIDE
    let w :=
      if !boostWasActive then
        -- scheduler switches are enumerated only for the debug log here
        (storeTargetTemperatureSnapshot w entry d.thermostat).1
      else w
    let resolvedTemp :=
      match temperatureC with
      | some t => some t
      | none => getNumberValue w entry UNIQUE_ID_BOOST_TEMPERATURE
    match resolvedTemp with
    | none => (w, some "Unable to determine boost temperature.")
    | some tc =>
      let durE : Except String Int :=
        match timeArg with
        | none =>
          let hours := (getNumberValue w entry UNIQUE_ID_TIME_SELECTOR).getD 0
          .ok (hours * 3600000)
        | some v => parseDurationValue v
      match durE with
      | .error msg => (w, some msg)
      | .ok dur =>
        let target := if w.unitCelsius then tc else (9 * tc) / 5 + 32
        let stepT := doCall w ⟨"climate", "set_temperature", [d.thermostat], some target⟩
        if !stepT.2 then (stepT.1, some "climate.set_temperature failed")
        else
          let w := timerStart stepT.1 entry dur
          let stepA :=
            match getEntityId w entry UNIQUE_ID_BOOST_ACTIVE with
            | some eid => doCall w ⟨"switch", "turn_on", [eid], none⟩
            | none => (w, true)
          if !stepA.2 then (stepA.1, some "switch.turn_on failed")
          else
            if !boostWasActive && !overrideActive then
              let scene := createSchedulerScene stepA.1 entry d.name
              if scene.2.isEmpty then (scene.1, none)
              else
                let stepS := doCall scene.1 ⟨"switch", "turn_off", scene.2, none⟩
                if !stepS.2 then (stepS.1, some "switch.turn_off failed")
                else (stepS.1, none)
            else (stepA.1, none)

/-! ## Interleaving model of the FinishBoost re-entrancy guard

`async_finish_boost_for_entry` runs on the single cooperative event loop: the
guard check plus `finish_in_progress.add(entry_id)` is one synchronous segment
(no `await` between them), the body is a chain of `n ≥ 1` awaited segments,
and the `finally` discard runs with the last segment.  A task is therefore a
step sequence: one enter step (dropped if the entry is already held, else it
acquires the guard and runs the first body segment) followed by body steps,
the last of which releases the guard.  Two concurrent invocations for the same
entry are two such tasks interleaved by a schedule. -/

/-- Status of one FinishBoost invocation for the guarded entry. -/
inductive TaskStatus
  | idle
  | running (k : Nat)
  | dropped
  | completed
  deriving DecidableEq

/-- Step one task: `n` is the number of awaited body segments.  Entering while
the guard is held drops the call (it is not queued and never retried). -/
def stepTask (n : Nat) (inP : Bool) : TaskStatus → TaskStatus × Bool
  | .idle => if inP then (.dropped, inP) else (.running 0, true)
  | .running k => if k + 1 < n then (.running (k + 1), inP) else (.completed, false)
  | .dropped => (.dropped, inP)
  | .completed => (.completed, inP)

/-- Two FinishBoost invocations for the same entry plus the guard bit. -/
structure GuardSys where
  inProgress : Bool
  a : TaskStatus
  b : TaskStatus
  deriving DecidableEq

/-- Scheduler step: `true` steps task `a`, `false` steps task `b`. -/
def stepSys (n : Nat) (s : GuardSys) (which : Bool) : GuardSys :=
  if which then
    let r := stepTask n s.inProgress s.a
    { s with a := r.1, inProgress := r.2 }
  else
    let r := stepTask n s.inProgress s.b
    { s with b := r.1, inProgress := r.2 }

/-- Run a schedule. -/
def runSched (n : Nat) (sched : List Bool) (s : GuardSys) : GuardSys :=
  sched.foldl (stepSys n) s

/-- Both tasks not yet started, guard free. -/
def guardInit : GuardSys := ⟨false, .idle, .idle⟩

/-- Number of invocations that ran the full body (the restore policy). -/
def completedCount (s : GuardSys) : Nat :=
  (if s.a = .completed then 1 else 0) + (if s.b = .completed then 1 else 0)

theorem runSched_append (n : Nat) (s : GuardSys) (l₁ l₂ : List Bool) :
    runSched n (l₁ ++ l₂) s = runSched n l₂ (runSched n l₁ s) := by
  simp [runSched, List.foldl_append]

theorem runSched_advance (n : Nat) (m j : Nat) (b : TaskStatus)
    (h : j + m < n) :
    runSched n (List.replicate m true) ⟨true, .running j, b⟩
      = ⟨true, .running (j + m), b⟩ := by
  induction m generalizing j with
  | zero => simp [runSched]
  | succ m ih =>
    have hstep : j + 1 < n := by omega
    have := ih (j + 1) (by omega)
    simp only [List.replicate_succ, runSched, List.foldl_cons] at *
    simp only [stepSys, if_pos rfl, stepTask, hstep, if_pos trivial] at *
    simpa [Nat.add_comm, Nat.add_assoc, Nat.add_left_comm] using this

theorem runSched_complete (n : Nat) (m j : Nat) (b : TaskStatus)
    (hm : 0 < m) (h : j + m = n) :
    runSched n (List.replicate m true) ⟨true, .running j, b⟩
      = ⟨false, .completed, b⟩ := by
  induction m generalizing j with
  | zero => omega
  | succ m ih =>
    cases Nat.eq_zero_or_pos m with
    | inl hz =>
      subst hz
      have hj : ¬ j + 1 < n := by omega
      simp [runSched, stepSys, stepTask, hj]
    | inr hpos =>
      have hstep : j + 1 < n := by omega
      have := ih (j + 1) hpos (by omega)
      simp only [List.replicate_succ, runSched, List.foldl_cons] at *
      simp only [stepSys, if_pos rfl, stepTask, hstep, if_pos trivial] at *
      exact this

theorem runSched_frozen (n : Nat) (rest : List Bool) :
    runSched n rest ⟨false, .completed, .dropped⟩
      = ⟨false, .completed, .dropped⟩ := by
  induction rest with
  | nil => rfl
  | cons x rest ih =>
    cases x <;> simpa [runSched, stepSys, stepTask] using ih

/-! ## Derived read models and concrete base world -/

/-- In-memory timer end for an entry (`BoostTimer._end` of the cached timer). -/
def memEnd (w : World) (entry : String) : Option Int :=
  (lookupA w.timers entry).bind fun r => r.tEnd

/-- Persisted timer end for an entry (`TimerRegistry._data`). -/
def persistedEnd (w : World) (entry : String) : Option Int :=
  lookupA w.timerData entry

/-- A world with empty host state, used to instantiate witnesses. -/
def emptyWorld : World where
  entityReg := []
  states := []
  entries := []
  schedSnap := []
  tempSnap := []
  restorePending := []
  restoreUnsub := []
  stabilizePending := []
  stabilizeUnsub := []
  retriggerPending := []
  retriggerUnsub := []
  finishInProgress := []
  timerData := []
  timers := []
  timerScheduled := []
  calls := []
  events := []
  tasks := []
  finishCallbackRegistered := true
  unitCelsius := true
  now := 0
  failing := []

/-! ## Timer claims -/

/-- Claim C4: with no cached timer and a persisted end already in the past,
`async_get_timer` runs exactly one `Finish(expired_while_offline=true)` (one
event appended) and leaves no armed future callback; with the persisted end
still in the future it arms a due-time callback from the persisted value
instead. -/
theorem claim_C4_registry_offline_expiry (w : World)
    (entry thermostat name : String) (e : Int)
    (h1 : lookupA w.timers entry = none)
    (h2 : lookupA w.timerData entry = some e) :
    (e ≤ w.now →
      (getTimer w entry thermostat name).events
          = w.events ++ [TimerEvent.mk entry thermostat name true]
      ∧ entry ∉ (getTimer w entry thermostat name).timerScheduled
      ∧ lookupA (getTimer w entry thermostat name).timerData entry = none)
    ∧ (w.now < e →
      (getTimer w entry thermostat name).events = w.events
      ∧ entry ∈ (getTimer w entry thermostat name).timerScheduled
      ∧ lookupA (getTimer w entry thermostat name).timers entry
          = some ⟨thermostat, name, some e⟩
      ∧ lookupA (getTimer w entry thermostat name).timerData entry = some e) := by
  constructor
  · intro hpast
    simp [getTimer, h1, h2, scheduleFinish, cancelSchedule, timerFinish,
      setMemEnd, timerSetEnd, lookupA_setA_self, lookupA_eraseA_self, hpast]
  · intro hfut
    have hnp : ¬ e ≤ w.now := by omega
    simp [getTimer, h1, h2, scheduleFinish, cancelSchedule, timerFinish,
      setMemEnd, timerSetEnd, lookupA_setA_self, hnp]

theorem claim_C4_registry_offline_expiry_witness :
    (let w := { emptyWorld with timerData := [("e", -5)] };
     (getTimer w "e" "climate.t" "Living").events
         = w.events ++ [TimerEvent.mk "e" "climate.t" "Living" true]
     ∧ "e" ∉ (getTimer w "e" "climate.t" "Living").timerScheduled
     ∧ lookupA (getTimer w "e" "climate.t" "Living").timerData "e" = none) :=
  (claim_C4_registry_offline_expiry _ "e" "climate.t" "Living" (-5)
    (by rfl) (by rfl)).1 (by decide)

/-- Independent check of the future-end branch of the registry recovery. -/
theorem registry_future_end_check :
    (let w := { emptyWorld with timerData := [("e", 60000)] };
     (getTimer w "e" "climate.t" "Living").events = w.events
     ∧ "e" ∈ (getTimer w "e" "climate.t" "Living").timerScheduled
     ∧ lookupA (getTimer w "e" "climate.t" "Living").timers "e"
         = some ⟨"climate.t", "Living", some 60000⟩
     ∧ lookupA (getTimer w "e" "climate.t" "Living").timerData "e"
         = some 60000) := by
  refine ⟨rfl, ?_, rfl, rfl⟩
  decide

/-- Claim C5: `Start(d)` with `d ≤ 0` immediately finishes with
`expired_while_offline=false` (one event, no armed callback, end cleared in
memory and storage); with `d > 0` it persists `end = now + d`, arms the
due-time callback, and an immediate `Snapshot()` reads `status="active"` with
`remaining = d`. -/
theorem claim_C5_start_semantics (w : World) (entry : String) (r : TimerRec)
    (d : Int) (hc : lookupA w.timers entry = some r) :
    (d ≤ 0 →
      (timerStart w entry d).events
          = w.events ++ [TimerEvent.mk entry r.thermostat r.name false]
      ∧ entry ∉ (timerStart w entry d).timerScheduled
      ∧ lookupA (timerStart w entry d).timerData entry = none
      ∧ lookupA (timerStart w entry d).timers entry = some { r with tEnd := none })
    ∧ (0 < d →
      lookupA (timerStart w entry d).timerData entry = some (w.now + d)
      ∧ entry ∈ (timerStart w entry d).timerScheduled
      ∧ (lookupA (timerStart w entry d).timers entry).map
            (fun rr => timerSnapshot rr w.now)
          = some ⟨d, "active", some (w.now + d)⟩) := by
  constructor
  · intro hle
    simp [timerStart, hle, timerFinish, setMemEnd, timerSetEnd, cancelSchedule,
      hc, lookupA_setA_self, lookupA_eraseA_self]
  · intro hpos
    have hnle : ¬ d ≤ 0 := by omega
    have hnot : ¬ w.now + d ≤ w.now := by omega
    simp [timerStart, hnle, setMemEnd, timerSetEnd, scheduleFinish,
      cancelSchedule, hc, lookupA_setA_self, timerSnapshot, hnot]

theorem claim_C5_start_semantics_witness :
    (let w := { emptyWorld with
        timers := [("e", ⟨"climate.t", "Living", none⟩)] };
     (timerStart w "e" 0).events
         = w.events ++ [TimerEvent.mk "e" "climate.t" "Living" false]
     ∧ "e" ∉ (timerStart w "e" 0).timerScheduled
     ∧ lookupA (timerStart w "e" 0).timerData "e" = none
     ∧ lookupA (timerStart w "e" 0).timers "e"
         = some ⟨"climate.t", "Living", none⟩) :=
  (claim_C5_start_semantics _ "e" ⟨"climate.t", "Living", none⟩ 0
    (by rfl)).1 (by decide)

/-- Independent check of the positive-duration branch of `Start`. -/
theorem timer_start_positive_check :
    (let w := { emptyWorld with
        timers := [("e", ⟨"climate.t", "Living", none⟩)] };
     lookupA (timerStart w "e" 7200000).timerData "e" = some 7200000
     ∧ "e" ∈ (timerStart w "e" 7200000).timerScheduled
     ∧ (lookupA (timerStart w "e" 7200000).timers "e").map
           (fun rr => timerSnapshot rr 0)
         = some ⟨7200000, "active", some 7200000⟩) := by
  refine ⟨rfl, ?_, rfl⟩
  simp [timerStart, setMemEnd, timerSetEnd, scheduleFinish, cancelSchedule,
    emptyWorld, lookupA, setA]

/-- Claim C9: after each timer mutation (`Start`, `Cancel`, `Finish`) the
persisted end entry equals the in-memory end. -/
theorem claim_C9_persistence_sync (w : World) (entry : String) (r : TimerRec)
    (d : Int) (expired : Bool) (hc : lookupA w.timers entry = some r) :
    memEnd (timerStart w entry d) entry = persistedEnd (timerStart w entry d) entry
    ∧ memEnd (timerCancel w entry) entry
        = persistedEnd (timerCancel w entry) entry
    ∧ memEnd (timerFinish w entry expired) entry
        = persistedEnd (timerFinish w entry expired) entry := by
  refine ⟨?_, ?_, ?_⟩
  · by_cases hle : d ≤ 0
    · simp [timerStart, hle, timerFinish, setMemEnd, timerSetEnd, cancelSchedule,
        hc, memEnd, persistedEnd, lookupA_setA_self, lookupA_eraseA_self]
    · simp [timerStart, hle, setMemEnd, timerSetEnd, scheduleFinish,
        cancelSchedule, hc, memEnd, persistedEnd, lookupA_setA_self]
  · simp [timerCancel, setMemEnd, timerSetEnd, cancelSchedule, hc, memEnd,
      persistedEnd, lookupA_setA_self, lookupA_eraseA_self]
  · simp [timerFinish, setMemEnd, timerSetEnd, cancelSchedule, hc, memEnd,
      persistedEnd, lookupA_setA_self, lookupA_eraseA_self]

theorem claim_C9_persistence_sync_witness :
    (let w := { emptyWorld with
        timers := [("e", ⟨"climate.t", "Living", some 10⟩)],
        timerData := [("e", 10)] };
     memEnd (timerStart w "e" 60000) "e" = persistedEnd (timerStart w "e" 60000) "e"
     ∧ memEnd (timerCancel w "e") "e" = persistedEnd (timerCancel w "e") "e"
     ∧ memEnd (timerFinish w "e" true) "e"
         = persistedEnd (timerFinish w "e" true) "e") :=
  claim_C9_persistence_sync _ "e" ⟨"climate.t", "Living", some 10⟩ 60000 true
    (by rfl)

/-! ## Concurrency claim -/

/-- Claim C3: with a body of `n ≥ 1` awaited segments, a second FinishBoost
call for the same entry whose guard check runs after the first call acquired
the guard (after `k < n` of its body segments) is dropped on the spot —
whatever the remaining schedule does, the first call completes, the second
ends dropped, and exactly one full execution of the restore policy happens. -/
theorem claim_C3_finish_reentrancy_guard (n k : Nat) (rest : List Bool)
    (hk : k < n) :
    (runSched n ([true] ++ List.replicate k true ++ [false]
        ++ List.replicate (n - k) true ++ rest) guardInit).a
      = TaskStatus.completed
    ∧ (runSched n ([true] ++ List.replicate k true ++ [false]
        ++ List.replicate (n - k) true ++ rest) guardInit).b
      = TaskStatus.dropped
    ∧ completedCount (runSched n ([true] ++ List.replicate k true ++ [false]
        ++ List.replicate (n - k) true ++ rest) guardInit) = 1 := by
  have hfinal : runSched n ([true] ++ List.replicate k true ++ [false]
      ++ List.replicate (n - k) true ++ rest) guardInit
      = ⟨false, .completed, .dropped⟩ := by
    rw [runSched_append, runSched_append, runSched_append, runSched_append]
    have s0 : runSched n [true] guardInit = ⟨true, .running 0, .idle⟩ := by
      simp [runSched, stepSys, guardInit, stepTask]
    rw [s0]
    have s1 : runSched n (List.replicate k true) ⟨true, .running 0, .idle⟩
        = ⟨true, .running k, .idle⟩ := by
      simpa using runSched_advance n k 0 .idle (by omega)
    rw [s1]
    have s2 : runSched n [false] ⟨true, .running k, .idle⟩
        = ⟨true, .running k, .dropped⟩ := by
      simp [runSched, stepSys, stepTask]
    rw [s2]
    have s3 : runSched n (List.replicate (n - k) true)
        ⟨true, .running k, .dropped⟩ = ⟨false, .completed, .dropped⟩ :=
      runSched_complete n (n - k) k .dropped (by omega) (by omega)
    rw [s3]
    exact runSched_frozen n rest
  rw [hfinal]
  simp [completedCount]

theorem claim_C3_finish_reentrancy_guard_witness :
    (runSched 2 ([true] ++ List.replicate 1 true ++ [false]
        ++ List.replicate (2 - 1) true ++ []) guardInit).a
      = TaskStatus.completed
    ∧ (runSched 2 ([true] ++ List.replicate 1 true ++ [false]
        ++ List.replicate (2 - 1) true ++ []) guardInit).b
      = TaskStatus.dropped
    ∧ completedCount (runSched 2 ([true] ++ List.replicate 1 true ++ [false]
        ++ List.replicate (2 - 1) true ++ []) guardInit) = 1 :=
  claim_C3_finish_reentrancy_guard 2 1 [] (by omega)

/-! ## Snapshot-store claims -/

theorem mem_keys_setA {α : Type} (l : List (String × α)) (k k' : String) (v : α)
    (h : k' ∈ (setA l k v).map Prod.fst) : k' ∈ l.map Prod.fst ∨ k' = k := by
  induction l with
  | nil => simpa [setA] using h
  | cons p rest ih =>
    obtain ⟨k₀, v₀⟩ := p
    by_cases h₀ : k₀ = k
    · subst h₀
      simp only [setA, beq_self_eq_true, if_pos] at h
      simp only [List.map_cons, List.mem_cons] at h ⊢
      tauto
    · simp only [setA, beq_iff_eq, h₀, if_false, List.map_cons, List.mem_cons] at h ⊢
      rcases h with h | h
      · tauto
      · rcases ih h with h' | h' <;> tauto

theorem nodupKeys_setA {α : Type} (l : List (String × α)) (k : String) (v : α)
    (h : (l.map Prod.fst).Nodup) : ((setA l k v).map Prod.fst).Nodup := by
  induction l with
  | nil => simp [setA]
  | cons p rest ih =>
    obtain ⟨k₀, v₀⟩ := p
    simp only [List.map_cons, List.nodup_cons] at h
    by_cases h₀ : k₀ = k
    · subst h₀
      simp only [setA, beq_self_eq_true, if_pos, List.map_cons, List.nodup_cons]
      exact h
    · simp only [setA, beq_iff_eq, h₀, if_false, List.map_cons, List.nodup_cons]
      refine ⟨fun hmem => ?_, ih h.2⟩
      rcases mem_keys_setA rest k k₀ v hmem with h' | h'
      · exact h.1 h'
      · exact h₀ h'

/-- Claim C6: a scheduler-snapshot restore attempt that finds at least one
snapshot entity unavailable/unknown makes zero bulk calls, leaves the snapshot
unconsumed, merges the offline-expiry flag into the pending map by logical OR,
and arms exactly one retry callback (arming while one is already armed is a
no-op). -/
theorem claim_C6_restore_deferral (w : World) (entry : String)
    (expired skip : Bool) (snap : List (String × String))
    (h1 : isSwitchOn w entry UNIQUE_ID_BOOST_ACTIVE = false)
    (h2 : isSwitchOn w entry UNIQUE_ID_SCHEDULE_OVERRIDE = false)
    (h3 : lookupA w.schedSnap entry = some snap)
    (h4 : snap.isEmpty = false)
    (h5 : (missingSnapshotEntities w snap).isEmpty = false) :
    (restoreSchedulerSnapshot w entry expired skip).calls = w.calls
    ∧ (restoreSchedulerSnapshot w entry expired skip).schedSnap = w.schedSnap
    ∧ lookupA (restoreSchedulerSnapshot w entry expired skip).restorePending entry
        = some (((lookupA w.restorePending entry).getD false) || expired)
    ∧ (restoreSchedulerSnapshot w entry expired skip).restoreUnsub
        = (if w.restoreUnsub.contains entry then w.restoreUnsub
           else entry :: w.restoreUnsub)
    ∧ (restoreSchedulerSnapshot w entry expired skip).states = w.states
    ∧ (restoreSchedulerSnapshot w entry expired skip).entityReg = w.entityReg := by
  have hstep : restoreSchedulerSnapshot w entry expired skip
      = scheduleSnapshotRestoreRetry w entry expired := by
    simp [restoreSchedulerSnapshot, h1, h2, h3, h4, h5]
  rw [hstep]
  unfold scheduleSnapshotRestoreRetry
  by_cases hc : entry ∈ w.restoreUnsub
  · simp [hc, lookupA_setA_self]
  · simp [hc, lookupA_setA_self]

theorem claim_C6_restore_deferral_witness :
    (let w := { emptyWorld with
        schedSnap := [("e", [("switch.s1", "on")])],
        restorePending := [("e", false)] };
     (restoreSchedulerSnapshot w "e" true false).calls = w.calls
     ∧ (restoreSchedulerSnapshot w "e" true false).schedSnap = w.schedSnap
     ∧ lookupA (restoreSchedulerSnapshot w "e" true false).restorePending "e"
         = some (((lookupA w.restorePending "e").getD false) || true)
     ∧ (restoreSchedulerSnapshot w "e" true false).restoreUnsub
         = (if w.restoreUnsub.contains "e" then w.restoreUnsub
            else "e" :: w.restoreUnsub)
     ∧ (restoreSchedulerSnapshot w "e" true false).states = w.states
     ∧ (restoreSchedulerSnapshot w "e" true false).entityReg = w.entityReg) :=
  claim_C6_restore_deferral _ "e" true false [("switch.s1", "on")]
    (by rfl) (by rfl) (by rfl) (by rfl) (by rfl)

/-- Claim C7 counterexample: the temperature-snapshot restore schedules NO
deferred retry when the bulk `climate.set_temperature` call raises — it
returns `False` with the snapshot kept and every pending-retry structure
untouched, so the two stores are not treated identically as the claim
states. -/
theorem claim_C7_counterexample :
    (let w := { emptyWorld with
        tempSnap := [("e", 18)],
        failing := [⟨"climate", "set_temperature", ["climate.t"], some 18⟩] };
     (restoreTargetTemperatureSnapshot w "e" "climate.t").2 = false
     ∧ (restoreTargetTemperatureSnapshot w "e" "climate.t").1.tempSnap
         = [("e", 18)]
     ∧ (restoreTargetTemperatureSnapshot w "e" "climate.t").1.restoreUnsub = []
     ∧ (restoreTargetTemperatureSnapshot w "e" "climate.t").1.restorePending = []
     ∧ (restoreTargetTemperatureSnapshot w "e" "climate.t").1.stabilizeUnsub = []
     ∧ (restoreTargetTemperatureSnapshot w "e" "climate.t").1.stabilizePending
         = []) := by
  refine ⟨rfl, rfl, rfl, rfl, rfl, rfl⟩

/-- Claim C7 (amended): a raising bulk call during restore never consumes the
snapshot and is logged rather than surfaced; the scheduler store additionally
schedules a deferred retry (merging the offline-expiry flag), while the
temperature store schedules no retry and only reports `False` to its caller. -/
theorem claim_C7_bulk_failure_amended :
    (∀ (w : World) (entry : String) (expired skip : Bool)
        (snap : List (String × String)),
      isSwitchOn w entry UNIQUE_ID_BOOST_ACTIVE = false →
      isSwitchOn w entry UNIQUE_ID_SCHEDULE_OVERRIDE = false →
      lookupA w.schedSnap entry = some snap →
      snap.isEmpty = false →
      (missingSnapshotEntities w snap).isEmpty = true →
      (expired && !skip) = false →
      ((snap.filter fun p => p.2 == "on").map fun p => p.1).isEmpty = false →
      w.failing.contains
          ⟨"switch", "turn_on",
            (snap.filter fun p => p.2 == "on").map fun p => p.1, none⟩ = true →
      (restoreSchedulerSnapshot w entry expired skip).schedSnap = w.schedSnap
      ∧ lookupA (restoreSchedulerSnapshot w entry expired skip).restorePending
            entry
          = some (((lookupA w.restorePending entry).getD false) || expired)
      ∧ (restoreSchedulerSnapshot w entry expired skip).restoreUnsub
          = (if w.restoreUnsub.contains entry then w.restoreUnsub
             else entry :: w.restoreUnsub)
      ∧ (restoreSchedulerSnapshot w entry expired skip).calls
          = w.calls ++ [⟨"switch", "turn_on",
              (snap.filter fun p => p.2 == "on").map fun p => p.1, none⟩]
      ∧ (restoreSchedulerSnapshot w entry expired skip).tempSnap = w.tempSnap)
    ∧ (∀ (w : World) (entry thermostat : String) (t : Int),
      lookupA w.tempSnap entry = some t →
      w.failing.contains ⟨"climate", "set_temperature", [thermostat], some t⟩
          = true →
      (restoreTargetTemperatureSnapshot w entry thermostat).2 = false
      ∧ (restoreTargetTemperatureSnapshot w entry thermostat).1.tempSnap
          = w.tempSnap
      ∧ (restoreTargetTemperatureSnapshot w entry thermostat).1.restoreUnsub
          = w.restoreUnsub
      ∧ (restoreTargetTemperatureSnapshot w entry thermostat).1.restorePending
          = w.restorePending
      ∧ (restoreTargetTemperatureSnapshot w entry thermostat).1.calls
          = w.calls ++ [⟨"climate", "set_temperature", [thermostat], some t⟩]) := by
  constructor
  · intro w entry expired skip snap h1 h2 h3 h4 h5 h6 h7 h8
    have hstep : restoreSchedulerSnapshot w entry expired skip
        = scheduleSnapshotRestoreRetry
            { w with calls := w.calls ++ [⟨"switch", "turn_on",
                (snap.filter fun p => p.2 == "on").map fun p => p.1, none⟩] }
            entry expired := by
      simp [restoreSchedulerSnapshot, h1, h2, h3, h4, h5, h6, h7, doCall, h8]
    rw [hstep]
    unfold scheduleSnapshotRestoreRetry
    by_cases hc : entry ∈ w.restoreUnsub
    · simp [hc, lookupA_setA_self]
    · simp [hc, lookupA_setA_self]
  · intro w entry thermostat t h1 h2
    simp [restoreTargetTemperatureSnapshot, h1, doCall, h2]

theorem claim_C7_bulk_failure_amended_witness :
    ((let w := { emptyWorld with
        schedSnap := [("e", [("switch.s1", "on")])],
        states := [("switch.s1", ⟨"off", [], none⟩)],
        failing := [⟨"switch", "turn_on", ["switch.s1"], none⟩] };
      (restoreSchedulerSnapshot w "e" false false).schedSnap = w.schedSnap
      ∧ lookupA (restoreSchedulerSnapshot w "e" false false).restorePending "e"
          = some (((lookupA w.restorePending "e").getD false) || false)
      ∧ (restoreSchedulerSnapshot w "e" false false).restoreUnsub
          = (if w.restoreUnsub.contains "e" then w.restoreUnsub
             else "e" :: w.restoreUnsub)
      ∧ (restoreSchedulerSnapshot w "e" false false).calls
          = w.calls ++ [⟨"switch", "turn_on", ["switch.s1"], none⟩]
      ∧ (restoreSchedulerSnapshot w "e" false false).tempSnap = w.tempSnap)
    ∧ (let w := { emptyWorld with
        tempSnap := [("e", 18)],
        failing := [⟨"climate", "set_temperature", ["climate.t"], some 18⟩] };
      (restoreTargetTemperatureSnapshot w "e" "climate.t").2 = false
      ∧ (restoreTargetTemperatureSnapshot w "e" "climate.t").1.tempSnap
          = w.tempSnap
      ∧ (restoreTargetTemperatureSnapshot w "e" "climate.t").1.restoreUnsub
          = w.restoreUnsub
      ∧ (restoreTargetTemperatureSnapshot w "e" "climate.t").1.restorePending
          = w.restorePending
      ∧ (restoreTargetTemperatureSnapshot w "e" "climate.t").1.calls
          = w.calls
            ++ [⟨"climate", "set_temperature", ["climate.t"], some 18⟩])) := by
  constructor
  · exact claim_C7_bulk_failure_amended.1 _ "e" false false [("switch.s1", "on")]
      (by rfl) (by rfl) (by rfl) (by rfl) (by rfl) (by rfl) (by rfl) (by rfl)
  · exact claim_C7_bulk_failure_amended.2 _ "e" "climate.t" 18 (by rfl) (by rfl)

/-- Claim C8 counterexample: when no scheduler switch matches the thermostat,
`async_create_scheduler_scene` returns the empty set WITHOUT writing anything,
so a prior unconsumed snapshot for the instance survives — refuting "every
Capture writes a full replacement snapshot ... overwrites any prior
unconsumed snapshot". -/
theorem claim_C8_counterexample :
    (let w := { emptyWorld with
        schedSnap := [("e", [("switch.old", "on")])] };
     getSchedulerSwitchesForThermostat w "Living" = []
     ∧ createSchedulerScene w "e" "Living" = (w, [])
     ∧ lookupA (createSchedulerScene w "e" "Living").1.schedSnap "e"
         = some [("switch.old", "on")]) :=
  ⟨rfl, rfl, rfl⟩

/-- Claim C8 (amended): the store keys one snapshot per instance, and a
Capture that finds at least one matching scheduler switch writes a full
replacement snapshot of the available matched entities (overwriting any prior
snapshot for the instance, other instances untouched, key uniqueness
preserved) and returns the captured entity set; a Capture that finds no
matching switch returns the empty set without touching the store at all. -/
theorem claim_C8_capture_amended (w : World) (entry name : String) :
    ((getSchedulerSwitchesForThermostat w name).isEmpty = true →
      createSchedulerScene w entry name = (w, []))
    ∧ ((getSchedulerSwitchesForThermostat w name).isEmpty = false →
      lookupA (createSchedulerScene w entry name).1.schedSnap entry
          = some (capturedSnapshot w (getSchedulerSwitchesForThermostat w name))
      ∧ (createSchedulerScene w entry name).2
          = (capturedSnapshot w (getSchedulerSwitchesForThermostat w name)).map
              (fun p => p.1)
      ∧ (∀ e', e' ≠ entry →
          lookupA (createSchedulerScene w entry name).1.schedSnap e'
            = lookupA w.schedSnap e')
      ∧ ((w.schedSnap.map Prod.fst).Nodup →
          ((createSchedulerScene w entry name).1.schedSnap.map Prod.fst).Nodup)) := by
  constructor
  · intro hempty
    simp [createSchedulerScene, hempty]
  · intro hne
    refine ⟨?_, ?_, ?_, ?_⟩
    · simp [createSchedulerScene, hne, lookupA_setA_self]
    · simp [createSchedulerScene, hne]
    · intro e' he'
      simp [createSchedulerScene, hne, lookupA_setA_ne _ _ he']
    · intro hnd
      simpa [createSchedulerScene, hne] using
        nodupKeys_setA w.schedSnap entry
          (capturedSnapshot w (getSchedulerSwitchesForThermostat w name)) hnd

theorem claim_C8_capture_amended_witness :
    (let w := { emptyWorld with
        entityReg := [⟨"switch.s1", "switch", "scheduler", "sched_1"⟩],
        states := [("switch.s1", ⟨"on", ["living"], none⟩)],
        schedSnap := [("e", [("switch.old", "on")]), ("f", [])] };
     lookupA (createSchedulerScene w "e" "Living").1.schedSnap "e"
         = some (capturedSnapshot w (getSchedulerSwitchesForThermostat w "Living"))
     ∧ (createSchedulerScene w "e" "Living").2
         = (capturedSnapshot w (getSchedulerSwitchesForThermostat w "Living")).map
             (fun p => p.1)
     ∧ lookupA (createSchedulerScene w "e" "Living").1.schedSnap "f"
         = lookupA w.schedSnap "f"
     ∧ ((createSchedulerScene w "e" "Living").1.schedSnap.map Prod.fst).Nodup) := by
  refine ⟨?_, ?_, ?_, ?_⟩
  · exact ((claim_C8_capture_amended _ "e" "Living").2 (by decide)).1
  · exact ((claim_C8_capture_amended _ "e" "Living").2 (by decide)).2.1
  · exact ((claim_C8_capture_amended _ "e" "Living").2 (by decide)).2.2.1 "f"
      (by decide)
  · exact ((claim_C8_capture_amended _ "e" "Living").2 (by decide)).2.2.2
      (by decide)

/-! ## Finish-policy claims -/

/-- Orchestration-state projection: the fields untouched by the timer engine
and by bulk service calls, used to frame the finish path. -/
def orchView (w : World) :=
  (w.entityReg, w.entries, w.schedSnap, w.tempSnap, w.restorePending,
   w.restoreUnsub, w.stabilizePending, w.stabilizeUnsub, w.retriggerPending,
   w.retriggerUnsub, w.finishInProgress, w.failing)

theorem orchView_setMemEnd (w : World) (e : String) (x : Option Int) :
    orchView (setMemEnd w e x) = orchView w := by
  unfold setMemEnd
  split <;> rfl

theorem orchView_timerSetEnd (w : World) (e : String) (x : Option Int) :
    orchView (timerSetEnd w e x) = orchView w := by
  unfold timerSetEnd
  split <;> rfl

theorem orchView_cancelSchedule (w : World) (e : String) :
    orchView (cancelSchedule w e) = orchView w := rfl

theorem orchView_scheduleFinish (w : World) (e : String) :
    orchView (scheduleFinish w e) = orchView w := by
  unfold scheduleFinish cancelSchedule
  dsimp only
  split
  · rfl
  · split <;> rfl

theorem orchView_timerFinish (w : World) (e : String) (ex : Bool) :
    orchView (timerFinish w e ex) = orchView w := by
  unfold timerFinish
  split
  · rfl
  · rename_i r heq
    simp [orchView, setMemEnd, timerSetEnd, cancelSchedule, heq]

theorem orchView_timerStart (w : World) (e : String) (d : Int) :
    orchView (timerStart w e d) = orchView w := by
  unfold timerStart
  split
  · exact orchView_timerFinish _ _ _
  · split
    · rfl
    · rename_i r heq
      simp [orchView, setMemEnd, timerSetEnd, scheduleFinish, cancelSchedule,
        heq, lookupA_setA_self]

theorem orchView_timerCancel (w : World) (e : String) :
    orchView (timerCancel w e) = orchView w := by
  unfold timerCancel
  split
  · rfl
  · rename_i r heq
    simp [orchView, setMemEnd, timerSetEnd, cancelSchedule, heq]

theorem orchView_getTimer (w : World) (e t n : String) :
    orchView (getTimer w e t n) = orchView w := by
  unfold getTimer
  dsimp only
  repeat' split
  all_goals try simp only [orchView_timerFinish, orchView_scheduleFinish]
  all_goals rfl

theorem orchView_applyCallEffect (w : World) (c : SvcCall) :
    orchView (applyCallEffect w c) = orchView w := by
  unfold applyCallEffect
  split
  · rfl
  · split
    · rfl
    · split
      · rfl
      · split <;> rfl

theorem orchView_doCall (w : World) (c : SvcCall) :
    orchView (doCall w c).1 = orchView w := by
  unfold doCall
  dsimp only
  split
  · rfl
  · exact orchView_applyCallEffect _ _

theorem orchView_finishPreamble (w : World) (entry : String) (d : EntryData) :
    orchView (finishPreamble w entry d).1 = orchView w := by
  unfold finishPreamble
  dsimp only
  repeat' split
  all_goals try simp only [orchView_doCall, orchView_timerCancel, orchView_getTimer]

theorem orchView_entityReg {w w' : World} (h : orchView w' = orchView w) :
    w'.entityReg = w.entityReg := by
  simpa [orchView, Prod.ext_iff] using congrArg (fun p => p.1) h

theorem orchView_schedSnap {w w' : World} (h : orchView w' = orchView w) :
    w'.schedSnap = w.schedSnap := by
  simpa [orchView, Prod.ext_iff] using congrArg (fun p => p.2.2.1) h

theorem orchView_restoreUnsub {w w' : World} (h : orchView w' = orchView w) :
    w'.restoreUnsub = w.restoreUnsub := by
  simpa [orchView, Prod.ext_iff] using congrArg (fun p => p.2.2.2.2.2.1) h

theorem orchView_stabilizeUnsub {w w' : World} (h : orchView w' = orchView w) :
    w'.stabilizeUnsub = w.stabilizeUnsub := by
  simpa [orchView, Prod.ext_iff] using congrArg (fun p => p.2.2.2.2.2.2.2.1) h

theorem orchView_tempSnap {w w' : World} (h : orchView w' = orchView w) :
    w'.tempSnap = w.tempSnap := by
  simpa [orchView, Prod.ext_iff] using congrArg (fun p => p.2.2.2.1) h

theorem doCall_schedSnap (w : World) (c : SvcCall) :
    (doCall w c).1.schedSnap = w.schedSnap :=
  orchView_schedSnap (orchView_doCall w c)

theorem doCall_restoreUnsub (w : World) (c : SvcCall) :
    (doCall w c).1.restoreUnsub = w.restoreUnsub :=
  orchView_restoreUnsub (orchView_doCall w c)

theorem doCall_stabilizeUnsub (w : World) (c : SvcCall) :
    (doCall w c).1.stabilizeUnsub = w.stabilizeUnsub :=
  orchView_stabilizeUnsub (orchView_doCall w c)

theorem doCall_tempSnap (w : World) (c : SvcCall) :
    (doCall w c).1.tempSnap = w.tempSnap :=
  orchView_tempSnap (orchView_doCall w c)

theorem finishPreamble_frame (w : World) (entry : String) (d : EntryData) :
    (finishPreamble w entry d).1.schedSnap = w.schedSnap
    ∧ (finishPreamble w entry d).1.restoreUnsub = w.restoreUnsub
    ∧ (finishPreamble w entry d).1.stabilizeUnsub = w.stabilizeUnsub
    ∧ (finishPreamble w entry d).1.tempSnap = w.tempSnap :=
  ⟨orchView_schedSnap (orchView_finishPreamble w entry d),
   orchView_restoreUnsub (orchView_finishPreamble w entry d),
   orchView_stabilizeUnsub (orchView_finishPreamble w entry d),
   orchView_tempSnap (orchView_finishPreamble w entry d)⟩

theorem restoreTemp_frame (w : World) (entry thermostat : String) :
    (restoreTargetTemperatureSnapshot w entry thermostat).1.schedSnap = w.schedSnap
    ∧ (restoreTargetTemperatureSnapshot w entry thermostat).1.restoreUnsub
        = w.restoreUnsub
    ∧ (restoreTargetTemperatureSnapshot w entry thermostat).1.stabilizeUnsub
        = w.stabilizeUnsub := by
  unfold restoreTargetTemperatureSnapshot
  split
  · exact ⟨rfl, rfl, rfl⟩
  · dsimp only
    split
    · exact ⟨doCall_schedSnap _ _, doCall_restoreUnsub _ _,
        doCall_stabilizeUnsub _ _⟩
    · simp [doCall_schedSnap, doCall_restoreUnsub, doCall_stabilizeUnsub]

/-- Claim C1 counterexample: a state where NO scheduler entity matches the
thermostat (the registry is empty) but a scheduler snapshot exists and the
override flag is off.  The claim requires the temperature-only path with the
scheduler snapshot left untouched in storage; the code instead takes the
scheduler-restore path, issues the bulk switch restore and consumes the
snapshot, because `no_schedules_detected` is not part of the decision. -/
theorem claim_C1_counterexample :
    (let w := { emptyWorld with
        entries := [("e", ⟨"climate.t", "Living"⟩)],
        timers := [("e", ⟨"climate.t", "Living", none⟩)],
        schedSnap := [("e", [("switch.s1", "on")])],
        states := [("switch.s1", ⟨"off", [], none⟩)] };
     getSchedulerSwitchesForThermostat w "Living" = []
     ∧ isSwitchOn w "e" UNIQUE_ID_SCHEDULE_OVERRIDE = false
     ∧ lookupA w.schedSnap "e" = some [("switch.s1", "on")]
     ∧ lookupA (finishBoostForEntry w "e" false).1.schedSnap "e" = none
     ∧ (finishBoostForEntry w "e" false).1.calls
         = [⟨"switch", "turn_on", ["switch.s1"], none⟩,
            ⟨"scheduler", "run_action", ["switch.s1"], none⟩]) := by
  refine ⟨rfl, rfl, rfl, rfl, rfl⟩

/-- Claim C1 (amended): at FinishBoost the restore decision reads only the
override flag and scheduler-snapshot existence — whether any scheduler entity
currently matches the thermostat does not participate.  If the override is on
or no snapshot exists, only the temperature restore is attempted and the
scheduler snapshot store and retry state stay untouched; otherwise the
temperature snapshot is restored first as a baseline and then the scheduler
snapshot restore is invoked on the resulting state. -/
theorem claim_C1_restore_policy_amended (w : World) (entry : String)
    (expired : Bool) (d : EntryData)
    (hg : w.finishInProgress.contains entry = false)
    (he : lookupA w.entries entry = some d)
    (hpre : (finishPreamble
        { w with finishInProgress := entry :: w.finishInProgress } entry d).2
        = true) :
    ((isSwitchOn (finishPreamble
          { w with finishInProgress := entry :: w.finishInProgress } entry d).1
          entry UNIQUE_ID_SCHEDULE_OVERRIDE
        || !hasSchedulerSnapshot (finishPreamble
          { w with finishInProgress := entry :: w.finishInProgress } entry d).1
          entry) = true →
      (finishBoostForEntry w entry expired).1.schedSnap = w.schedSnap
      ∧ (finishBoostForEntry w entry expired).1.restoreUnsub = w.restoreUnsub
      ∧ (finishBoostForEntry w entry expired).1.stabilizeUnsub = w.stabilizeUnsub
      ∧ (finishBoostForEntry w entry expired).1.tempSnap
          = (restoreTargetTemperatureSnapshot (finishPreamble
              { w with finishInProgress := entry :: w.finishInProgress } entry d).1
              entry d.thermostat).1.tempSnap)
    ∧ ((isSwitchOn (finishPreamble
          { w with finishInProgress := entry :: w.finishInProgress } entry d).1
          entry UNIQUE_ID_SCHEDULE_OVERRIDE
        || !hasSchedulerSnapshot (finishPreamble
          { w with finishInProgress := entry :: w.finishInProgress } entry d).1
          entry) = false →
      (finishBoostForEntry w entry expired).1
        = (let wt := (restoreTargetTemperatureSnapshot (finishPreamble
              { w with finishInProgress := entry :: w.finishInProgress } entry d).1
              entry d.thermostat).1
           let ws := restoreSchedulerSnapshot wt entry expired false
           { ws with finishInProgress :=
               ws.finishInProgress.filter fun x => x != entry })) := by
  have hg' : entry ∉ w.finishInProgress := by simpa using hg
  constructor
  · intro hcond
    have hrun : (finishBoostForEntry w entry expired).1
        = (let wt := (restoreTargetTemperatureSnapshot (finishPreamble
              { w with finishInProgress := entry :: w.finishInProgress } entry d).1
              entry d.thermostat).1
           { wt with finishInProgress :=
               wt.finishInProgress.filter fun x => x != entry }) := by
      simp [finishBoostForEntry, hg', finishBody, he, hpre, hcond]
    rw [hrun]
    have hp := finishPreamble_frame
      { w with finishInProgress := entry :: w.finishInProgress } entry d
    have ht := restoreTemp_frame (finishPreamble
      { w with finishInProgress := entry :: w.finishInProgress } entry d).1
      entry d.thermostat
    refine ⟨?_, ?_, ?_, rfl⟩
    · exact ht.1.trans hp.1
    · exact ht.2.1.trans hp.2.1
    · exact ht.2.2.trans hp.2.2.1
  · intro hcond
    simp [finishBoostForEntry, hg', finishBody, he, hpre, hcond]

theorem claim_C1_restore_policy_amended_witness :
    (let w := { emptyWorld with
        entries := [("e", ⟨"climate.t", "Living"⟩)],
        timers := [("e", ⟨"climate.t", "Living", none⟩)],
        schedSnap := [("e", [("switch.s1", "on")])],
        states := [("switch.s1", ⟨"off", [], none⟩)] };
     (finishBoostForEntry w "e" false).1
       = (let wt := (restoreTargetTemperatureSnapshot (finishPreamble
             { w with finishInProgress := "e" :: w.finishInProgress } "e"
             ⟨"climate.t", "Living"⟩).1 "e" "climate.t").1
          let ws := restoreSchedulerSnapshot wt "e" false false
          { ws with finishInProgress :=
              ws.finishInProgress.filter fun x => x != "e" })) :=
  (claim_C1_restore_policy_amended _ "e" false ⟨"climate.t", "Living"⟩
    (by rfl) (by rfl) (by rfl)).2 (by rfl)

/-! ## Start-policy claims -/

theorem getTimer_of_cached (w : World) (e t n : String)
    (h : (lookupA w.timers e).isSome = true) : getTimer w e t n = w := by
  unfold getTimer
  simp [h]

theorem isSwitchOn_none (w : World) (e s : String)
    (h : getEntityId w e s = none) : isSwitchOn w e s = false := by
  unfold isSwitchOn
  rw [h]

theorem getNumberValue_congr (w w' : World) (e s : String)
    (h1 : w'.entityReg = w.entityReg) (h2 : w'.states = w.states) :
    getNumberValue w' e s = getNumberValue w e s := by
  unfold getNumberValue getEntityId
  rw [h1, h2]

theorem getEntityId_congr (w w' : World) (e s : String)
    (h1 : w'.entityReg = w.entityReg) :
    getEntityId w' e s = getEntityId w e s := by
  unfold getEntityId
  rw [h1]

theorem isSwitchOn_congr (w w' : World) (e s : String)
    (h1 : w'.entityReg = w.entityReg) (h2 : w'.states = w.states) :
    isSwitchOn w' e s = isSwitchOn w e s := by
  unfold isSwitchOn getEntityId
  rw [h1, h2]

theorem storeTemp_calls (w : World) (e t : String) :
    (storeTargetTemperatureSnapshot w e t).1.calls = w.calls := by
  unfold storeTargetTemperatureSnapshot
  split <;> rfl

theorem storeTemp_events (w : World) (e t : String) :
    (storeTargetTemperatureSnapshot w e t).1.events = w.events := by
  unfold storeTargetTemperatureSnapshot
  split <;> rfl

theorem storeTemp_tasks (w : World) (e t : String) :
    (storeTargetTemperatureSnapshot w e t).1.tasks = w.tasks := by
  unfold storeTargetTemperatureSnapshot
  split <;> rfl

theorem storeTemp_timers (w : World) (e t : String) :
    (storeTargetTemperatureSnapshot w e t).1.timers = w.timers := by
  unfold storeTargetTemperatureSnapshot
  split <;> rfl

theorem storeTemp_timerData (w : World) (e t : String) :
    (storeTargetTemperatureSnapshot w e t).1.timerData = w.timerData := by
  unfold storeTargetTemperatureSnapshot
  split <;> rfl

theorem storeTemp_timerScheduled (w : World) (e t : String) :
    (storeTargetTemperatureSnapshot w e t).1.timerScheduled
      = w.timerScheduled := by
  unfold storeTargetTemperatureSnapshot
  split <;> rfl

theorem storeTemp_schedSnap (w : World) (e t : String) :
    (storeTargetTemperatureSnapshot w e t).1.schedSnap = w.schedSnap := by
  unfold storeTargetTemperatureSnapshot
  split <;> rfl

theorem storeTemp_states (w : World) (e t : String) :
    (storeTargetTemperatureSnapshot w e t).1.states = w.states := by
  unfold storeTargetTemperatureSnapshot
  split <;> rfl

theorem storeTemp_entityReg (w : World) (e t : String) :
    (storeTargetTemperatureSnapshot w e t).1.entityReg = w.entityReg := by
  unfold storeTargetTemperatureSnapshot
  split <;> rfl

theorem storeTemp_failing (w : World) (e t : String) :
    (storeTargetTemperatureSnapshot w e t).1.failing = w.failing := by
  unfold storeTargetTemperatureSnapshot
  split <;> rfl

theorem storeTemp_unitCelsius (w : World) (e t : String) :
    (storeTargetTemperatureSnapshot w e t).1.unitCelsius = w.unitCelsius := by
  unfold storeTargetTemperatureSnapshot
  split <;> rfl

theorem storeTemp_finishCallbackRegistered (w : World) (e t : String) :
    (storeTargetTemperatureSnapshot w e t).1.finishCallbackRegistered
      = w.finishCallbackRegistered := by
  unfold storeTargetTemperatureSnapshot
  split <;> rfl

theorem applyCallEffect_only_states (w : World) (c : SvcCall) :
    (applyCallEffect w c).entityReg = w.entityReg
    ∧ (applyCallEffect w c).timers = w.timers
    ∧ (applyCallEffect w c).timerData = w.timerData
    ∧ (applyCallEffect w c).timerScheduled = w.timerScheduled
    ∧ (applyCallEffect w c).events = w.events
    ∧ (applyCallEffect w c).tasks = w.tasks
    ∧ (applyCallEffect w c).failing = w.failing
    ∧ (applyCallEffect w c).unitCelsius = w.unitCelsius
    ∧ (applyCallEffect w c).finishCallbackRegistered = w.finishCallbackRegistered
    ∧ (applyCallEffect w c).calls = w.calls := by
  unfold applyCallEffect
  repeat' split
  all_goals exact ⟨rfl, rfl, rfl, rfl, rfl, rfl, rfl, rfl, rfl, rfl⟩

theorem doCall_entityReg (w : World) (c : SvcCall) :
    (doCall w c).1.entityReg = w.entityReg := by
  unfold doCall
  dsimp only
  split
  · rfl
  · exact (applyCallEffect_only_states _ _).1

theorem doCall_timers (w : World) (c : SvcCall) :
    (doCall w c).1.timers = w.timers := by
  unfold doCall
  dsimp only
  split
  · rfl
  · exact (applyCallEffect_only_states _ _).2.1

theorem doCall_timerData (w : World) (c : SvcCall) :
    (doCall w c).1.timerData = w.timerData := by
  unfold doCall
  dsimp only
  split
  · rfl
  · exact (applyCallEffect_only_states _ _).2.2.1

theorem doCall_timerScheduled (w : World) (c : SvcCall) :
    (doCall w c).1.timerScheduled = w.timerScheduled := by
  unfold doCall
  dsimp only
  split
  · rfl
  · exact (applyCallEffect_only_states _ _).2.2.2.1

theorem doCall_events (w : World) (c : SvcCall) :
    (doCall w c).1.events = w.events := by
  unfold doCall
  dsimp only
  split
  · rfl
  · exact (applyCallEffect_only_states _ _).2.2.2.2.1

theorem doCall_tasks (w : World) (c : SvcCall) :
    (doCall w c).1.tasks = w.tasks := by
  unfold doCall
  dsimp only
  split
  · rfl
  · exact (applyCallEffect_only_states _ _).2.2.2.2.2.1

theorem doCall_failing (w : World) (c : SvcCall) :
    (doCall w c).1.failing = w.failing := by
  unfold doCall
  dsimp only
  split
  · rfl
  · exact (applyCallEffect_only_states _ _).2.2.2.2.2.2.1

theorem doCall_unitCelsius (w : World) (c : SvcCall) :
    (doCall w c).1.unitCelsius = w.unitCelsius := by
  unfold doCall
  dsimp only
  split
  · rfl
  · exact (applyCallEffect_only_states _ _).2.2.2.2.2.2.2.1

theorem doCall_finishCallbackRegistered (w : World) (c : SvcCall) :
    (doCall w c).1.finishCallbackRegistered = w.finishCallbackRegistered := by
  unfold doCall
  dsimp only
  split
  · rfl
  · exact (applyCallEffect_only_states _ _).2.2.2.2.2.2.2.2.1

theorem doCall_calls (w : World) (c : SvcCall) :
    (doCall w c).1.calls = w.calls ++ [c] := by
  unfold doCall
  dsimp only
  split
  · rfl
  · exact (applyCallEffect_only_states _ _).2.2.2.2.2.2.2.2.2

theorem doCall_ok (w : World) (c : SvcCall) (h : w.failing = []) :
    (doCall w c).2 = true := by
  unfold doCall
  simp [h]

/-- `async_finish` on a cached timer, written as one record update. -/
theorem timerFinish_eq (w : World) (e : String) (ex : Bool) (r : TimerRec)
    (h : lookupA w.timers e = some r) :
    timerFinish w e ex
      = { w with
          timers := setA w.timers e { r with tEnd := none },
          timerData := eraseA w.timerData e,
          timerScheduled := w.timerScheduled.filter fun x => x != e,
          events := w.events ++ [TimerEvent.mk e r.thermostat r.name ex],
          tasks := if w.finishCallbackRegistered then w.tasks ++ [e]
                   else w.tasks } := by
  unfold timerFinish setMemEnd timerSetEnd cancelSchedule
  simp [h]

theorem timerStart_nonpos (w : World) (e : String) (d : Int) (h : d ≤ 0) :
    timerStart w e d = timerFinish w e false := by
  unfold timerStart
  simp [h]

/-- Claim C2 counterexample: on a first activation whose thermostat has a
readable target temperature but whose boost-temperature control is missing,
StartBoost stores the pre-boost TemperatureSnapshot (a persisted write) and
only then raises the configuration error — refuting "no side effects applied
yet ... before any snapshot state is written". -/
theorem claim_C2_counterexample :
    (let w := { emptyWorld with
        entries := [("e", ⟨"climate.t", "Living"⟩)],
        timers := [("e", ⟨"climate.t", "Living", none⟩)],
        states := [("climate.t", ⟨"heat", [], some 18⟩)] };
     (startBoostForEntry w "e" none none).2
         = some "Unable to determine boost temperature."
     ∧ lookupA (startBoostForEntry w "e" none none).1.tempSnap "e" = some 18
     ∧ lookupA w.tempSnap "e" = none) :=
  ⟨rfl, rfl, rfl⟩

/-- Claim C2 (amended): an unresolved boost temperature, or an explicitly
supplied malformed/non-positive duration, raises a user-visible configuration
error and aborts StartBoost before any external service call, before the
timer is started and before the scheduler snapshot is written — but on a
first activation the pre-boost TemperatureSnapshot may already have been
captured before these checks run. -/
theorem claim_C2_start_error_amended (w : World) (entry : String)
    (d : EntryData) (r : TimerRec) (timeArg : Option TimeArg) (v : TimeArg)
    (tc : Int) (msg : String)
    (he : lookupA w.entries entry = some d)
    (hc : lookupA w.timers entry = some r) :
    (getNumberValue w entry UNIQUE_ID_BOOST_TEMPERATURE = none →
      (startBoostForEntry w entry timeArg none).2
          = some "Unable to determine boost temperature."
      ∧ (startBoostForEntry w entry timeArg none).1.calls = w.calls
      ∧ (startBoostForEntry w entry timeArg none).1.events = w.events
      ∧ (startBoostForEntry w entry timeArg none).1.timers = w.timers
      ∧ (startBoostForEntry w entry timeArg none).1.timerData = w.timerData
      ∧ (startBoostForEntry w entry timeArg none).1.schedSnap = w.schedSnap)
    ∧ (parseDurationValue v = .error msg →
      (startBoostForEntry w entry (some v) (some tc)).2 = some msg
      ∧ (startBoostForEntry w entry (some v) (some tc)).1.calls = w.calls
      ∧ (startBoostForEntry w entry (some v) (some tc)).1.events = w.events
      ∧ (startBoostForEntry w entry (some v) (some tc)).1.timers = w.timers
      ∧ (startBoostForEntry w entry (some v) (some tc)).1.timerData
          = w.timerData
      ∧ (startBoostForEntry w entry (some v) (some tc)).1.schedSnap
          = w.schedSnap) := by
  have hsome : (lookupA w.timers entry).isSome = true := by simp [hc]
  constructor
  · intro hb
    by_cases hba : isSwitchOn w entry UNIQUE_ID_BOOST_ACTIVE
    · simp [startBoostForEntry, he,
        getTimer_of_cached w entry d.thermostat d.name hsome, hba, hb]
    · have hb1 : getNumberValue
          (storeTargetTemperatureSnapshot w entry d.thermostat).1 entry
          UNIQUE_ID_BOOST_TEMPERATURE = none := by
        rw [getNumberValue_congr w _ entry UNIQUE_ID_BOOST_TEMPERATURE
          (storeTemp_entityReg w entry d.thermostat)
          (storeTemp_states w entry d.thermostat)]
        exact hb
      simp [startBoostForEntry, he,
        getTimer_of_cached w entry d.thermostat d.name hsome, hba, hb1,
        storeTemp_calls, storeTemp_events, storeTemp_timers, storeTemp_timerData,
        storeTemp_schedSnap]
  · intro hpd
    by_cases hba : isSwitchOn w entry UNIQUE_ID_BOOST_ACTIVE
    · simp [startBoostForEntry, he,
        getTimer_of_cached w entry d.thermostat d.name hsome, hba, hpd]
    · simp [startBoostForEntry, he,
        getTimer_of_cached w entry d.thermostat d.name hsome, hba, hpd,
        storeTemp_calls, storeTemp_events, storeTemp_timers, storeTemp_timerData,
        storeTemp_schedSnap]

theorem claim_C2_start_error_amended_witness :
    (let w := { emptyWorld with
        entries := [("e", ⟨"climate.t", "Living"⟩)],
        timers := [("e", ⟨"climate.t", "Living", none⟩)],
        states := [("climate.t", ⟨"heat", [], some 18⟩)] };
     ((startBoostForEntry w "e" none none).2
           = some "Unable to determine boost temperature."
       ∧ (startBoostForEntry w "e" none none).1.calls = w.calls
       ∧ (startBoostForEntry w "e" none none).1.events = w.events
       ∧ (startBoostForEntry w "e" none none).1.timers = w.timers
       ∧ (startBoostForEntry w "e" none none).1.timerData = w.timerData
       ∧ (startBoostForEntry w "e" none none).1.schedSnap = w.schedSnap)
     ∧ ((startBoostForEntry w "e" (some (TimeArg.strVal "00:00:00")) (some 21)).2
           = some "time cannot be 00:00:00."
       ∧ (startBoostForEntry w "e" (some (TimeArg.strVal "00:00:00"))
           (some 21)).1.calls = w.calls
       ∧ (startBoostForEntry w "e" (some (TimeArg.strVal "00:00:00"))
           (some 21)).1.events = w.events
       ∧ (startBoostForEntry w "e" (some (TimeArg.strVal "00:00:00"))
           (some 21)).1.timers = w.timers
       ∧ (startBoostForEntry w "e" (some (TimeArg.strVal "00:00:00"))
           (some 21)).1.timerData = w.timerData
       ∧ (startBoostForEntry w "e" (some (TimeArg.strVal "00:00:00"))
           (some 21)).1.schedSnap = w.schedSnap)) := by
  refine ⟨?_, ?_⟩
  · exact (claim_C2_start_error_amended _ "e" ⟨"climate.t", "Living"⟩
      ⟨"climate.t", "Living", none⟩ none (TimeArg.strVal "00:00:00") 21
      "time cannot be 00:00:00." (by rfl) (by rfl)).1 (by rfl)
  · exact (claim_C2_start_error_amended _ "e" ⟨"climate.t", "Living"⟩
      ⟨"climate.t", "Living", none⟩ none (TimeArg.strVal "00:00:00") 21
      "time cannot be 00:00:00." (by rfl) (by rfl)).2 (by rfl)

end ThermostatBoost

namespace ThermostatBoost

theorem getSchedulerSwitches_nil (w : World) (name : String)
    (h : ∀ re ∈ w.entityReg,
      (re.domain == "switch" && strLower re.platform == "scheduler") = false) :
    getSchedulerSwitchesForThermostat w name = [] := by
  unfold getSchedulerSwitchesForThermostat
  refine List.filterMap_eq_nil_iff.mpr fun re hre => ?_
  simp [h re hre]

theorem createScene_nil (w : World) (entry name : String)
    (h : getSchedulerSwitchesForThermostat w name = []) :
    createSchedulerScene w entry name = (w, []) := by
  unfold createSchedulerScene
  simp [h]

/-- Claim C10: with no explicit duration argument and a duration control that
is absent or reads zero, StartBoost raises no error; the resolved zero
duration flows into `Timer.Start`, which immediately finishes the timer — the
target temperature is set and the finish path (event plus fallback task) is
triggered at once, leaving the timer idle in memory and storage. -/
theorem claim_C10_zero_duration_start (w : World) (entry : String)
    (d : EntryData) (r : TimerRec) (tc : Int)
    (he : lookupA w.entries entry = some d)
    (hc : lookupA w.timers entry = some r)
    (hfail : w.failing = [])
    (hcb : w.finishCallbackRegistered = true)
    (hdur : (getNumberValue w entry UNIQUE_ID_TIME_SELECTOR).getD 0 = 0)
    (hba : getEntityId w entry UNIQUE_ID_BOOST_ACTIVE = none)
    (hsched : ∀ re ∈ w.entityReg,
      (re.domain == "switch" && strLower re.platform == "scheduler") = false) :
    (startBoostForEntry w entry none (some tc)).2 = none
    ∧ (startBoostForEntry w entry none (some tc)).1.events
        = w.events ++ [TimerEvent.mk entry r.thermostat r.name false]
    ∧ (startBoostForEntry w entry none (some tc)).1.tasks = w.tasks ++ [entry]
    ∧ (startBoostForEntry w entry none (some tc)).1.calls
        = w.calls ++ [⟨"climate", "set_temperature", [d.thermostat],
            some (if w.unitCelsius then tc else (9 * tc) / 5 + 32)⟩]
    ∧ memEnd (startBoostForEntry w entry none (some tc)).1 entry = none
    ∧ persistedEnd (startBoostForEntry w entry none (some tc)).1 entry = none := by
  have hsome : (lookupA w.timers entry).isSome = true := by simp [hc]
  have hbaF : isSwitchOn w entry UNIQUE_ID_BOOST_ACTIVE = false :=
    isSwitchOn_none w entry _ hba
  have hdur1 : (getNumberValue
      (storeTargetTemperatureSnapshot w entry d.thermostat).1 entry
      UNIQUE_ID_TIME_SELECTOR).getD 0 = 0 := by
    rw [getNumberValue_congr w _ entry UNIQUE_ID_TIME_SELECTOR
      (storeTemp_entityReg w entry d.thermostat)
      (storeTemp_states w entry d.thermostat)]
    exact hdur
  have hcel : (storeTargetTemperatureSnapshot w entry d.thermostat).1.unitCelsius
      = w.unitCelsius := storeTemp_unitCelsius w entry d.thermostat
  have hfail1 : (storeTargetTemperatureSnapshot w entry d.thermostat).1.failing
      = [] := (storeTemp_failing w entry d.thermostat).trans hfail
  have hok : (doCall (storeTargetTemperatureSnapshot w entry d.thermostat).1
      ⟨"climate", "set_temperature", [d.thermostat],
        some (if w.unitCelsius then tc else (9 * tc) / 5 + 32)⟩).2 = true :=
    doCall_ok _ _ hfail1
  have htim2 : (doCall (storeTargetTemperatureSnapshot w entry d.thermostat).1
      ⟨"climate", "set_temperature", [d.thermostat],
        some (if w.unitCelsius then tc else (9 * tc) / 5 + 32)⟩).1.timers
      = w.timers :=
    (doCall_timers _ _).trans (storeTemp_timers w entry d.thermostat)
  have hlook2 : lookupA (doCall
      (storeTargetTemperatureSnapshot w entry d.thermostat).1
      ⟨"climate", "set_temperature", [d.thermostat],
        some (if w.unitCelsius then tc else (9 * tc) / 5 + 32)⟩).1.timers entry
      = some r := by rw [htim2]; exact hc
  have hfin := timerFinish_eq (doCall
      (storeTargetTemperatureSnapshot w entry d.thermostat).1
      ⟨"climate", "set_temperature", [d.thermostat],
        some (if w.unitCelsius then tc else (9 * tc) / 5 + 32)⟩).1
    entry false r hlook2
  have hreg3 : (timerFinish (doCall
      (storeTargetTemperatureSnapshot w entry d.thermostat).1
      ⟨"climate", "set_temperature", [d.thermostat],
        some (if w.unitCelsius then tc else (9 * tc) / 5 + 32)⟩).1
      entry false).entityReg = w.entityReg :=
    (orchView_entityReg (orchView_timerFinish _ _ _)).trans
      ((doCall_entityReg _ _).trans (storeTemp_entityReg w entry d.thermostat))
  have hba3 : getEntityId (timerFinish (doCall
      (storeTargetTemperatureSnapshot w entry d.thermostat).1
      ⟨"climate", "set_temperature", [d.thermostat],
        some (if w.unitCelsius then tc else (9 * tc) / 5 + 32)⟩).1
      entry false) entry UNIQUE_ID_BOOST_ACTIVE = none :=
    (getEntityId_congr w _ entry UNIQUE_ID_BOOST_ACTIVE hreg3).trans hba
  have hsw3 : getSchedulerSwitchesForThermostat (timerFinish (doCall
      (storeTargetTemperatureSnapshot w entry d.thermostat).1
      ⟨"climate", "set_temperature", [d.thermostat],
        some (if w.unitCelsius then tc else (9 * tc) / 5 + 32)⟩).1
      entry false) d.name = [] := by
    refine getSchedulerSwitches_nil _ d.name fun re hre => ?_
    rw [hreg3] at hre
    exact hsched re hre
  have hscene := createScene_nil (timerFinish (doCall
      (storeTargetTemperatureSnapshot w entry d.thermostat).1
      ⟨"climate", "set_temperature", [d.thermostat],
        some (if w.unitCelsius then tc else (9 * tc) / 5 + 32)⟩).1
      entry false) entry d.name hsw3
  have hstart : timerStart (doCall
      (storeTargetTemperatureSnapshot w entry d.thermostat).1
      ⟨"climate", "set_temperature", [d.thermostat],
        some (if w.unitCelsius then tc else (9 * tc) / 5 + 32)⟩).1
      entry 0
      = timerFinish (doCall
      (storeTargetTemperatureSnapshot w entry d.thermostat).1
      ⟨"climate", "set_temperature", [d.thermostat],
        some (if w.unitCelsius then tc else (9 * tc) / 5 + 32)⟩).1
      entry false :=
    timerStart_nonpos _ entry 0 (by norm_num)
  have hmain : startBoostForEntry w entry none (some tc)
      = (timerFinish (doCall
          (storeTargetTemperatureSnapshot w entry d.thermostat).1
          ⟨"climate", "set_temperature", [d.thermostat],
            some (if w.unitCelsius then tc else (9 * tc) / 5 + 32)⟩).1
          entry false, none) := by
    by_cases hov : isSwitchOn w entry UNIQUE_ID_SCHEDULE_OVERRIDE
    · simp only [startBoostForEntry, he,
        getTimer_of_cached w entry d.thermostat d.name hsome, hbaF,
        Bool.not_false, if_true, hdur1, hcel, zero_mul, hstart, hok, hba3,
        Bool.not_true, Bool.false_and, Bool.and_false, if_false, hov]
      simp
    · simp only [startBoostForEntry, he,
        getTimer_of_cached w entry d.thermostat d.name hsome, hbaF,
        Bool.not_false, if_true, hdur1, hcel, zero_mul, hstart, hok, hba3,
        Bool.not_true, Bool.true_and, hov, hscene, List.isEmpty_nil, if_true]
      simp [hscene]
  rw [hmain]
  dsimp only
  rw [hfin]
  refine ⟨rfl, ?_, ?_, ?_, ?_, ?_⟩
  · simp [doCall_events, storeTemp_events]
  · simp [doCall_tasks, storeTemp_tasks, doCall_finishCallbackRegistered,
      storeTemp_finishCallbackRegistered, hcb]
  · simp [doCall_calls, storeTemp_calls]
  · simp [memEnd, lookupA_setA_self]
  · simp [persistedEnd, lookupA_eraseA_self]

end ThermostatBoost

namespace ThermostatBoost

theorem claim_C10_zero_duration_start_witness :
    (let w := { emptyWorld with
        entries := [("e", ⟨"climate.t", "Living"⟩)],
        timers := [("e", ⟨"climate.t", "Living", none⟩)] };
     (startBoostForEntry w "e" none (some 21)).2 = none
     ∧ (startBoostForEntry w "e" none (some 21)).1.events
         = w.events ++ [TimerEvent.mk "e" "climate.t" "Living" false]
     ∧ (startBoostForEntry w "e" none (some 21)).1.tasks = w.tasks ++ ["e"]
     ∧ (startBoostForEntry w "e" none (some 21)).1.calls
         = w.calls ++ [⟨"climate", "set_temperature", ["climate.t"],
             some (if w.unitCelsius then 21 else (9 * 21) / 5 + 32)⟩]
     ∧ memEnd (startBoostForEntry w "e" none (some 21)).1 "e" = none
     ∧ persistedEnd (startBoostForEntry w "e" none (some 21)).1 "e" = none) :=
  claim_C10_zero_duration_start _ "e" ⟨"climate.t", "Living"⟩
    ⟨"climate.t", "Living", none⟩ 21 (by rfl) (by rfl) (by rfl) (by rfl)
    (by rfl) (by rfl) (by simp [emptyWorld])

end ThermostatBoost
